import Mathlib

/-!
# ArgusSentinel — shallow embedding and verification

A shallow embedding of the ArgusSentinel process monitor (Go) and proofs of
the testable properties stated in its specification.

Modelling conventions:
* Go strings are modelled as `List Char` (`Str`).  `strings.ToLower` and
  `strings.EqualFold` are modelled over the ASCII range (all concrete
  strings appearing in the development are ASCII).
* Go's `path/filepath.Match` (Unix separator `/`) is modelled by `globMatch`.
  A malformed pattern never matches, mirroring the callers' treatment of
  `ErrBadPattern` (both call sites discard or guard on the error, and Go
  returns `matched = false` alongside any error).
* Machine integers (`int32`, `int64`) are modelled as `ℤ`, with explicit
  two's-complement wrapping (`wrap32`) at the one arithmetic site where Go
  performs `int32` subtraction.  `uint64` byte counts are modelled as `ℕ`.
* `float64` thresholds and ratios are modelled as `ℚ`.  The single division
  site (`memory ratio`) divides by zero in Go when the old usage is 0; IEEE
  semantics (`+Inf`, `NaN`) are reproduced there by an explicit case split.
* Wall-clock timestamps carry no information relevant to any property and
  are omitted from the modelled records.
-/

namespace ArgusSentinel

/-- Go strings, modelled as lists of characters. -/
abbrev Str := List Char

/-- ASCII lowercasing of one character (model of `unicode.ToLower` on the
ASCII range, as used by `strings.ToLower`). -/
def lowerChar (c : Char) : Char :=
  if 'A' ≤ c ∧ c ≤ 'Z' then Char.ofNat (c.toNat + 32) else c

/-- Model of `strings.ToLower`. -/
def lowerStr (s : Str) : Str := s.map lowerChar

/-- Model of `strings.EqualFold` (ASCII simple case folding: the two strings
are equal after lowercasing). -/
def eqFold (s t : Str) : Bool := lowerStr s = lowerStr t

/-!
## Glob matching: model of Go `path/filepath.Match` (Unix)

`parseClassBody` parses the body of a character class `[...]` (after any
leading `^`), returning the list of ranges and the remainder of the pattern,
or `none` for a malformed class (Go's `ErrBadPattern`).  A single character
`c` in a class is the range `(c, c)`; an escaped character `\c` stands for
`c` literally; a range is `lo-hi`.  The class must contain at least one
range before the closing `]`.
-/

def parseClassBody : ℕ → Str → List (Char × Char) → Option (List (Char × Char) × Str)
  | 0, _, _ => none
  | _ + 1, [], _ => none
  | _ + 1, ']' :: rest, acc =>
      -- a `]` before any range is part of no well-formed class
      if acc.isEmpty then none else some (acc.reverse, rest)
  | _ + 1, '-' :: _, _ => none
  | _ + 1, '\\' :: [], _ => none
  | fuel + 1, '\\' :: lo :: rest1, acc =>
      match rest1 with
      | '-' :: [] => none
      | '-' :: ']' :: _ => none
      | '-' :: '-' :: _ => none
      | '-' :: '\\' :: [] => none
      | '-' :: '\\' :: hi :: rest4 => parseClassBody fuel rest4 ((lo, hi) :: acc)
      | '-' :: hi :: rest3 => parseClassBody fuel rest3 ((lo, hi) :: acc)
      | _ => parseClassBody fuel rest1 ((lo, lo) :: acc)
  | fuel + 1, lo :: rest1, acc =>
      match rest1 with
      | '-' :: [] => none
      | '-' :: ']' :: _ => none
      | '-' :: '-' :: _ => none
      | '-' :: '\\' :: [] => none
      | '-' :: '\\' :: hi :: rest4 => parseClassBody fuel rest4 ((lo, hi) :: acc)
      | '-' :: hi :: rest3 => parseClassBody fuel rest3 ((lo, hi) :: acc)
      | _ => parseClassBody fuel rest1 ((lo, lo) :: acc)

/-- Parse a character class after the opening `[`: an optional leading `^`
negates the class.  The fuel `p.length` is sufficient because every
recursive step of `parseClassBody` consumes at least one pattern
character. -/
def parseClass (p : Str) : Option (Bool × List (Char × Char) × Str) :=
  match p with
  | '^' :: rest => (parseClassBody rest.length rest []).map (fun x => (true, x.1, x.2))
  | _ => (parseClassBody p.length p []).map (fun x => (false, x.1, x.2))

/-- Does character `c` satisfy the (possibly negated) class? -/
def classMatches (neg : Bool) (ranges : List (Char × Char)) (c : Char) : Bool :=
  (ranges.any fun r => decide (r.1 ≤ c ∧ c ≤ r.2)) != neg

/-- Fuel-indexed matcher.  Every recursive call strictly decreases
`p.length + s.length`, so fuel `p.length + s.length + 1` (supplied by
`globMatch`) is always sufficient and the `0` clause is never reached.
Semantics follow Go `path/filepath.Match` on Unix: `*` matches any sequence
of non-`/` characters, `?` any single non-`/` character, `[...]`/`[^...]`
character classes (which may match `/`), `\c` a literal `c`; any other
character matches itself; a malformed pattern matches nothing. -/
def globMatchAux : ℕ → Str → Str → Bool
  | 0, _, _ => false
  | _ + 1, [], s => s.isEmpty
  | fuel + 1, '*' :: p, s =>
      globMatchAux fuel p s ||
        (match s with
         | [] => false
         | c :: s' => c ≠ '/' && globMatchAux fuel ('*' :: p) s')
  | fuel + 1, '?' :: p, s =>
      (match s with
       | c :: s' => c ≠ '/' && globMatchAux fuel p s'
       | [] => false)
  | fuel + 1, '[' :: p, s =>
      (match s with
       | c :: s' =>
         (match parseClass p with
          | some (neg, ranges, p') => classMatches neg ranges c && globMatchAux fuel p' s'
          | none => false)
       | [] => false)
  | fuel + 1, '\\' :: p, s =>
      (match p, s with
       | c :: p', d :: s' => c == d && globMatchAux fuel p' s'
       | _, _ => false)
  | fuel + 1, c :: p, s =>
      (match s with
       | d :: s' => c == d && globMatchAux fuel p s'
       | [] => false)

/-- Model of Go `path/filepath.Match pattern name` restricted to its boolean
result (`true` exactly when the match succeeds with no error). -/
def globMatch (p s : Str) : Bool := globMatchAux (p.length + s.length + 1) p s

/-!
## Data model (`types/events.go`)

The reserved slice fields of `ProcessInfo` (`MemoryRegions`, `Privileges`,
`NetworkConns`) are never read or written by the modelled code and, per the
specification, carry no invariant; they are omitted from the record.
Wall-clock `Timestamp` fields are likewise omitted.
-/

/-- `types.EventType`. -/
inductive EventType where
  | ProcessCreated
  | ProcessTerminated
  | ProcessModified
deriving DecidableEq, Repr

/-- `types.ModificationType`.  The Go zero value is `MemoryModification`
(the first constant of the `iota` block). -/
inductive ModificationType where
  | MemoryModification
  | ThreadCreation
  | HandleTableChange
  | PrivilegeChange
  | BehaviorChange
  | CommandLineChange
  | ThreadCountChange
  | HandleCountChange
  | WorkingDirectoryChange
deriving DecidableEq, Repr

/-- Tagged model of the `interface{}`-typed `OldValue`/`NewValue` slots of a
modification record (the code stores strings, `int32` counts, or `uint64`
byte counts there). -/
inductive GoValue where
  | str (s : Str)
  | int32 (i : ℤ)
  | uint64 (n : ℕ)
deriving DecidableEq, Repr

/-- `types.ProcessInfo`.  `int32` fields are modelled as `ℤ`, `uint64`
as `ℕ`, `float64` as `ℚ`. -/
structure ProcessInfo where
  PID : ℤ
  Name : Str
  CreateTime : ℤ
  ParentPID : ℤ
  Executable : Str
  CommandLine : Str
  Username : Str
  CPUPercent : ℚ
  MemoryUsage : ℕ
  NumThreads : ℤ
  Cwd : Str
  ThreadCount : ℤ
  HandleCount : ℤ
deriving DecidableEq, Repr

/-- `types.ProcessEvent` (timestamp omitted).  For `Created`/`Terminated`
events the code leaves `ModType` and `Description` at their Go zero values
(`MemoryModification`, `""`). -/
structure ProcessEvent where
  -- the source field is named `Type`; that is a keyword in Lean
  Type' : EventType
  Process : ProcessInfo
  ModType : ModificationType
  Description : Str
deriving DecidableEq, Repr

/-- `types.ProcessModification` (timestamp omitted). -/
structure ProcessModification where
  ProcessID : ℤ
  ModType : ModificationType
  OldValue : GoValue
  NewValue : GoValue
  Description : Str
deriving DecidableEq, Repr

/-!
## Configuration (`config/config.go`)

`time.Duration` values are modelled as `ℤ` nanoseconds.
-/

/-- `config.MonitoringConfig`. -/
structure MonitoringConfig where
  PollInterval : ℤ
  EnableEventLogging : Bool
  LogPath : Str
  MemoryChangeThreshold : ℚ
  CPUThreshold : ℚ
  ThreadChangeThreshold : ℤ
  HandleChangeThreshold : ℤ
  MonitorCommandLine : Bool
  MonitorMemory : Bool
  MonitorThreads : Bool
  MonitorHandles : Bool
  MonitorWorkingDir : Bool
  MonitorConnections : Bool
  ExcludedProcesses : List Str
  IncludedProcesses : List Str
  ExcludedUsers : List Str
  ProcessPriorityThreshold : ℤ
  MaxProcessesToMonitor : ℤ
  ProcessAgeThreshold : ℤ
deriving DecidableEq, Repr

/-- `config.DefaultConfig`. -/
def DefaultConfig : MonitoringConfig where
  PollInterval := 1000000000            -- time.Second
  EnableEventLogging := true
  LogPath := "process_monitor.log".toList
  MemoryChangeThreshold := (1 : ℚ) / 10 -- 0.1
  CPUThreshold := (3 : ℚ) / 4           -- 0.75
  ThreadChangeThreshold := 2
  HandleChangeThreshold := 10
  MonitorCommandLine := true
  MonitorMemory := true
  MonitorThreads := true
  MonitorHandles := true
  MonitorWorkingDir := true
  MonitorConnections := false
  ExcludedProcesses := ["svchost.exe".toList, "RuntimeBroker.exe".toList]
  IncludedProcesses := []
  ExcludedUsers := ["root".toList]
  ProcessPriorityThreshold := 32768
  MaxProcessesToMonitor := 1000
  ProcessAgeThreshold := 60000000000    -- 1 * time.Minute

/-- `(*MonitoringConfig).Validate`: `none` means the configuration is
accepted, `some msg` is the returned error. -/
def Validate (c : MonitoringConfig) : Option Str :=
  if c.PollInterval < 100000000 then
    some "poll interval too short, minimum 100ms".toList
  else if c.MemoryChangeThreshold ≤ 0 ∨ 1 < c.MemoryChangeThreshold then
    some "memory change threshold must be between 0 and 1".toList
  else if c.CPUThreshold ≤ 0 ∨ 1 < c.CPUThreshold then
    some "CPU threshold must be between 0 and 1".toList
  else if c.ThreadChangeThreshold < 0 then
    some "thread change threshold must be non-negative".toList
  else if c.HandleChangeThreshold < 0 then
    some "handle change threshold must be non-negative".toList
  else
    none

/-- `config.LoadConfig`, with the file read and YAML unmarshalling
abstracted into the already-parsed configuration: the function returns the
parsed configuration only if `Validate` accepts it. -/
def LoadConfig (parsed : MonitoringConfig) : Except Str MonitoringConfig :=
  match Validate parsed with
  | some e => .error e
  | none => .ok parsed

/-!
## The two filter predicates

`ShouldMonitorProcess` models `(*ProcessFilter).ShouldMonitorProcess` from
the config package (the commented-out age and priority checks in the source
contribute nothing).  `shouldMonitorProcess` models the collector's inline
`(*ProcessCollector).shouldMonitorProcess`.  In both, a `filepath.Match`
error leaves `matched == false`, so the error guards in the source do not
change the predicate.
-/

/-- `(*ProcessFilter).ShouldMonitorProcess` (config package). -/
def ShouldMonitorProcess (cfg : MonitoringConfig) (info : ProcessInfo) : Bool :=
  let processName := lowerStr info.Name
  if cfg.ExcludedProcesses.any (fun excluded => globMatch (lowerStr excluded) processName) then
    false
  else if !cfg.IncludedProcesses.isEmpty
      && !(cfg.IncludedProcesses.any fun includedProc =>
            globMatch (lowerStr includedProc) processName) then
    false
  else if cfg.ExcludedUsers.any (fun excludedUser =>
      lowerStr excludedUser == lowerStr info.Username) then
    false
  else
    true

/-- `(*ProcessCollector).shouldMonitorProcess` (collector package, inline
variant).  Note the differences from the config-package filter: a second
exclusion pass using `strings.EqualFold`, and inclusion tested with
`strings.EqualFold` rather than glob matching. -/
def shouldMonitorProcess (cfg : MonitoringConfig) (info : ProcessInfo) : Bool :=
  let processName := lowerStr info.Name
  if cfg.ExcludedProcesses.any (fun excluded => globMatch (lowerStr excluded) processName) then
    false
  else if cfg.ExcludedProcesses.any (fun excluded => eqFold info.Name excluded) then
    false
  else if !cfg.IncludedProcesses.isEmpty
      && !(cfg.IncludedProcesses.any fun includedProc => eqFold info.Name includedProc) then
    false
  else if cfg.ExcludedUsers.any (fun excludedUser => eqFold info.Username excludedUser) then
    false
  else
    true

/-!
## Diff engine (`detectModifications`)
-/

/-- Two's-complement wrap of an integer into the `int32` range. -/
def wrap32 (n : ℤ) : ℤ := (n + 2 ^ 31) % 2 ^ 32 - 2 ^ 31

/-- Model of `int32(math.Abs(float64(new - old)))` on `int32` operands: the
subtraction wraps to `int32`; `float64` represents every `int32` and its
absolute value exactly; the final `int32` conversion wraps again (relevant
only in the `-2^31` corner, where Go's float-to-int conversion is not fully
specified; two's-complement wrap models the common behaviour). -/
def absDiff32 (a b : ℤ) : ℤ := wrap32 |wrap32 (a - b)|

/-- Decimal rendering of an integer, modelling `fmt.Sprintf("%d", ·)`. -/
def intStr (i : ℤ) : Str :=
  if i < 0 then '-' :: Nat.toDigits 10 i.natAbs else Nat.toDigits 10 i.toNat

/-- The memory-ratio test of `detectModifications`:
`memDiff := float64(newMem) / float64(oldMem)` followed by
`memDiff < 1 - threshold || memDiff > 1 + threshold`.  When `oldMem = 0`
the Go division yields `+Inf` for `newMem > 0` (which exceeds any finite
`1 + threshold`, so the test is `true`) and `NaN` for `newMem = 0` (all
comparisons with `NaN` are `false`); both IEEE outcomes are reproduced by
the explicit case split.  For `oldMem ≠ 0` the ratio is modelled as an
exact rational. -/
def memRatioOutside (threshold : ℚ) (oldMem newMem : ℕ) : Bool :=
  if oldMem = 0 then
    decide (0 < newMem)
  else
    let memDiff : ℚ := (newMem : ℚ) / (oldMem : ℚ)
    decide (memDiff < 1 - threshold ∨ 1 + threshold < memDiff)

/-- `(*ProcessCollector).detectModifications`.  The five field checks are
appended in source order: command line, thread count, handle count, memory,
working directory. -/
def detectModifications (cfg : MonitoringConfig) (old new : ProcessInfo) :
    List ProcessModification :=
  if !shouldMonitorProcess cfg new then [] else
  let cmdMods : List ProcessModification :=
    if cfg.MonitorCommandLine && old.CommandLine != new.CommandLine then
      [{ ProcessID := new.PID, ModType := .CommandLineChange,
         OldValue := .str old.CommandLine, NewValue := .str new.CommandLine,
         Description := "Command line modified".toList }]
    else []
  let threadMods : List ProcessModification :=
    if cfg.MonitorThreads then
      let threadDiff := absDiff32 new.ThreadCount old.ThreadCount
      if cfg.ThreadChangeThreshold ≤ threadDiff then
        [{ ProcessID := new.PID, ModType := .ThreadCountChange,
           OldValue := .int32 old.ThreadCount, NewValue := .int32 new.ThreadCount,
           Description := "Thread count changed by ".toList ++ intStr threadDiff }]
      else []
    else []
  let handleMods : List ProcessModification :=
    if cfg.MonitorHandles then
      let handleDiff := absDiff32 new.HandleCount old.HandleCount
      if cfg.HandleChangeThreshold ≤ handleDiff then
        [{ ProcessID := new.PID, ModType := .HandleCountChange,
           OldValue := .int32 old.HandleCount, NewValue := .int32 new.HandleCount,
           Description := "Handle count changed by ".toList ++ intStr handleDiff }]
      else []
    else []
  let memMods : List ProcessModification :=
    if cfg.MonitorMemory
        && memRatioOutside cfg.MemoryChangeThreshold old.MemoryUsage new.MemoryUsage then
      [{ ProcessID := new.PID, ModType := .MemoryModification,
         OldValue := .uint64 old.MemoryUsage, NewValue := .uint64 new.MemoryUsage,
         Description := "Significant memory usage change".toList }]
    else []
  let cwdMods : List ProcessModification :=
    if cfg.MonitorWorkingDir && old.Cwd != new.Cwd then
      [{ ProcessID := new.PID, ModType := .WorkingDirectoryChange,
         OldValue := .str old.Cwd, NewValue := .str new.Cwd,
         Description := "Working directory changed".toList }]
    else []
  cmdMods ++ threadMods ++ handleMods ++ memMods ++ cwdMods

/-!
## Collector (`process_collector.go`)

A snapshot (`map[int32]types.ProcessInfo`) is modelled as an association
list; `mapSet` models Go map assignment (replacing any existing binding).
An enumerated process handle (`*process.Process`) is modelled by `RawProc`,
whose fields are the results of the per-handle accessors (`none` = that
accessor failed).
-/

/-- A process snapshot: `map[int32]types.ProcessInfo`. -/
abbrev Snapshot := List (ℤ × ProcessInfo)

/-- Map lookup. -/
def lookupS : Snapshot → ℤ → Option ProcessInfo
  | [], _ => none
  | (k, v) :: rest, pid => if k = pid then some v else lookupS rest pid

/-- Map assignment `processes[pid] = info`. -/
def mapSet (m : Snapshot) (pid : ℤ) (info : ProcessInfo) : Snapshot :=
  m.filter (fun kv => kv.1 != pid) ++ [(pid, info)]

/-- One enumerated process handle: the results of the gopsutil accessors
used by `getProcessInfo` (`none` models that accessor returning an error;
`MemoryInfoRSS = some rss` models `MemoryInfo` succeeding with a non-nil
result whose resident set size is `rss`). -/
structure RawProc where
  Pid : ℤ
  Name : Option Str
  CreateTime : Option ℤ
  Ppid : Option ℤ
  Exe : Option Str
  Cmdline : Option Str
  Username : Option Str
  CPUPercent : Option ℚ
  NumThreads : Option ℤ
  Cwd : Option Str
  MemoryInfoRSS : Option ℕ
deriving DecidableEq, Repr

/-- `utils.SetField`: overwrite the field only when the accessor
succeeded. -/
def SetField {α : Type} (field : α) (getter : Option α) : α :=
  getter.getD field

/-- `(*ProcessCollector).getProcessInfo`.  Fields without an accessor call
(`ThreadCount`, `HandleCount`) keep their Go zero values.  The second
component is the returned `error`, which is always `nil`. -/
def getProcessInfo (p : RawProc) : ProcessInfo × Option Str :=
  let info : ProcessInfo :=
    { PID := p.Pid, Name := [], CreateTime := 0, ParentPID := 0, Executable := [],
      CommandLine := [], Username := [], CPUPercent := 0, MemoryUsage := 0,
      NumThreads := 0, Cwd := [], ThreadCount := 0, HandleCount := 0 }
  let info :=
    { info with
      Name := SetField info.Name p.Name
      CreateTime := SetField info.CreateTime p.CreateTime
      ParentPID := SetField info.ParentPID p.Ppid
      Executable := SetField info.Executable p.Exe
      CommandLine := SetField info.CommandLine p.Cmdline
      Username := SetField info.Username p.Username
      CPUPercent := SetField info.CPUPercent p.CPUPercent
      NumThreads := SetField info.NumThreads p.NumThreads
      Cwd := SetField info.Cwd p.Cwd }
  let info :=
    match p.MemoryInfoRSS with
    | some rss => { info with MemoryUsage := rss }
    | none => info
  (info, none)

/-- `(*ProcessCollector).getRunningProcesses` on a successful enumeration:
build the snapshot from the handle list, skipping a record whose
`getProcessInfo` reports an error and filtering through
`ShouldMonitorProcess`. -/
def getRunningProcesses (cfg : MonitoringConfig) (procs : List RawProc) : Snapshot :=
  procs.foldl
    (fun processes p =>
      match getProcessInfo p with
      | (_, some _) => processes
      | (info, none) =>
          if ShouldMonitorProcess cfg info then mapSet processes p.Pid info
          else processes)
    []

/-- The skip-free snapshot builder asserted by claim C10, defined from the
claim's words for comparison with `getRunningProcesses`: every enumerated
process that passes the filter is included, with no error branch. -/
def getRunningProcessesNoSkip (cfg : MonitoringConfig) (procs : List RawProc) : Snapshot :=
  procs.foldl
    (fun processes p =>
      let info := (getProcessInfo p).1
      if ShouldMonitorProcess cfg info then mapSet processes p.Pid info
      else processes)
    []

/-- A `ProcessModified` event as sent by the `Monitor` loop. -/
def modEvent (newInfo : ProcessInfo) (m : ProcessModification) : ProcessEvent :=
  { Type' := .ProcessModified, Process := newInfo,
    ModType := m.ModType, Description := m.Description }

/-- A `ProcessCreated` event (ModType/Description left at Go zero values). -/
def createdEvent (info : ProcessInfo) : ProcessEvent :=
  { Type' := .ProcessCreated, Process := info,
    ModType := .MemoryModification, Description := [] }

/-- A `ProcessTerminated` event (ModType/Description left at Go zero values). -/
def terminatedEvent (info : ProcessInfo) : ProcessEvent :=
  { Type' := .ProcessTerminated, Process := info,
    ModType := .MemoryModification, Description := [] }

/-- The events sent during one `Monitor` tick, given the retained snapshot
`current` and the freshly built `newSnapshot`: first the loop over
`newSnapshot` (modification events for surviving PIDs, creation events for
new PIDs, both gated by the config-package filter), then the loop over
`current` (termination events for vanished PIDs, same gate).  Go map
iteration order is unspecified; the model fixes the association-list
order. -/
def tickEvents (cfg : MonitoringConfig) (current newSnapshot : Snapshot) :
    List ProcessEvent :=
  (newSnapshot.flatMap fun kv =>
    match lookupS current kv.1 with
    | some oldInfo =>
        if ShouldMonitorProcess cfg kv.2 then
          (detectModifications cfg oldInfo kv.2).map (modEvent kv.2)
        else []
    | none =>
        if ShouldMonitorProcess cfg kv.2 then [createdEvent kv.2] else [])
  ++ current.flatMap fun kv =>
    match lookupS newSnapshot kv.1 with
    | some _ => []
    | none => if ShouldMonitorProcess cfg kv.2 then [terminatedEvent kv.2] else []

/-- One iteration of the `Monitor` poll loop body: `enum` is the result of
the full enumeration (`none` models `process.Processes()` failing, in which
case the code hits `continue`: no events, snapshot retained).  Returns the
retained snapshot after the tick and the events sent during it. -/
def tick (cfg : MonitoringConfig) (current : Snapshot)
    (enum : Option (List RawProc)) : Snapshot × List ProcessEvent :=
  match enum with
  | none => (current, [])
  | some procs =>
      let newSnapshot := getRunningProcesses cfg procs
      (newSnapshot, tickEvents cfg current newSnapshot)

/-- The poll loop run over a finite sequence of tick inputs, accumulating
all sent events (cancellation simply truncates the sequence). -/
def runTicks (cfg : MonitoringConfig) : Snapshot → List (Option (List RawProc)) →
    Snapshot × List ProcessEvent
  | current, [] => (current, [])
  | current, e :: rest =>
      let step := tick cfg current e
      let restRun := runTicks cfg step.1 rest
      (restRun.1, step.2 ++ restRun.2)

/-!
## Diff-cycle classification (for the partition property)
-/

/-- The four classes of the snapshot partition property. -/
inductive PidClass where
  | created
  | terminated
  | unchangedNoMod
  | unchangedModified
deriving DecidableEq, Repr

/-- The class a PID falls into during one diff cycle, read off the branch
structure of the `Monitor` loop: in `newSnapshot` only → created; in the
retained snapshot only → terminated; in both → modified or not according to
`detectModifications`.  `none` means the PID is in neither snapshot. -/
def classifyPid (cfg : MonitoringConfig) (prev cur : Snapshot) (pid : ℤ) :
    Option PidClass :=
  match lookupS prev pid, lookupS cur pid with
  | none, none => none
  | none, some _ => some .created
  | some _, none => some .terminated
  | some oldInfo, some newInfo =>
      if (detectModifications cfg oldInfo newInfo).isEmpty then some .unchangedNoMod
      else some .unchangedModified

/-- The PIDs of a snapshot, as a finite set. -/
def keysFin (s : Snapshot) : Finset ℤ := (s.map Prod.fst).toFinset

/-- The set of PIDs classified into class `c` by one diff cycle. -/
def classFin (cfg : MonitoringConfig) (prev cur : Snapshot) (c : PidClass) :
    Finset ℤ :=
  (keysFin prev ∪ keysFin cur).filter (fun pid => classifyPid cfg prev cur pid = some c)

/-!
## Specification-side definitions
-/

/-- A snapshot is filter-closed: every entry satisfies the config-package
filter (the invariant stated for snapshots in §3 of the specification). -/
def filterClosed (cfg : MonitoringConfig) (s : Snapshot) : Prop :=
  ∀ kv ∈ s, ShouldMonitorProcess cfg kv.2 = true

/-- The filtering rules exactly as §4.1 of the specification states them,
defined from the specification's words for comparison with
`ShouldMonitorProcess`: (1) reject a name case-insensitively glob-matching
an excluded-process entry; (2) reject if the included-process list is
non-empty and the name glob-matches no entry; (3) reject a username
case-insensitively equal to an excluded-user entry; (4) accept. -/
def shouldMonitorSpecRules (cfg : MonitoringConfig) (info : ProcessInfo) : Bool :=
  if cfg.ExcludedProcesses.any (fun e => globMatch (lowerStr e) (lowerStr info.Name)) then
    false
  else if !cfg.IncludedProcesses.isEmpty
      && !(cfg.IncludedProcesses.any fun e => globMatch (lowerStr e) (lowerStr info.Name)) then
    false
  else if cfg.ExcludedUsers.any (fun u => eqFold info.Username u) then
    false
  else
    true

/-- An out-of-range configuration in the sense of claim C8: poll interval
below 100ms, a memory or CPU ratio threshold outside `(0, 1]`, or a
negative integer delta threshold.  Defined from the claim's words for
comparison with `Validate`. -/
def outOfRangeConfig (c : MonitoringConfig) : Prop :=
  c.PollInterval < 100000000
    ∨ c.MemoryChangeThreshold ≤ 0 ∨ 1 < c.MemoryChangeThreshold
    ∨ c.CPUThreshold ≤ 0 ∨ 1 < c.CPUThreshold
    ∨ c.ThreadChangeThreshold < 0
    ∨ c.HandleChangeThreshold < 0

/-!
## Concrete fixtures used by witnesses and counterexamples
-/

/-- A process record that passes `DefaultConfig`'s filter. -/
def infoBash : ProcessInfo :=
  { PID := 1, Name := "bash".toList, CreateTime := 0, ParentPID := 0, Executable := [],
    CommandLine := [], Username := "liran".toList, CPUPercent := 0, MemoryUsage := 0,
    NumThreads := 0, Cwd := [], ThreadCount := 0, HandleCount := 0 }

/-- `infoBash` with a non-zero memory usage. -/
def infoBashMem5 : ProcessInfo := { infoBash with MemoryUsage := 5 }

/-- `infoBash` with 5 threads. -/
def infoBashThr5 : ProcessInfo := { infoBash with ThreadCount := 5 }

/-- `infoBash` with 7 threads. -/
def infoBashThr7 : ProcessInfo := { infoBash with ThreadCount := 7 }

/-- The default configuration with a zero (still validation-accepted) thread
threshold and no filtering. -/
def cfgZeroThr : MonitoringConfig :=
  { DefaultConfig with
    ThreadChangeThreshold := 0
    ExcludedProcesses := []
    ExcludedUsers := [] }

/-- The default configuration with no exclusions and a glob include list. -/
def cfgInc : MonitoringConfig :=
  { DefaultConfig with
    ExcludedProcesses := []
    ExcludedUsers := []
    IncludedProcesses := ["ngin*".toList] }

/-- The default configuration with all filter lists empty. -/
def cfgOpen : MonitoringConfig :=
  { DefaultConfig with
    ExcludedProcesses := []
    ExcludedUsers := [] }

/-- An nginx process (glob-included by `cfgInc`) with command line `a`. -/
def infoNgxOld : ProcessInfo :=
  { infoBash with Name := "nginx".toList, CommandLine := "a".toList }

/-- The same nginx process with command line `b`. -/
def infoNgxNew : ProcessInfo :=
  { infoBash with Name := "nginx".toList, CommandLine := "b".toList }

/-- The nginx process with non-zero memory usage. -/
def infoNgxMem5 : ProcessInfo := { infoNgxOld with MemoryUsage := 5 }

/-- The nginx process with 5 threads. -/
def infoNgxThr5 : ProcessInfo := { infoNgxOld with ThreadCount := 5 }

/-- The nginx process with 7 threads. -/
def infoNgxThr7 : ProcessInfo := { infoNgxOld with ThreadCount := 7 }

/-!
## Helper lemmas
-/

/-- `Validate` accepts a configuration exactly when every range check of the
source passes. -/
theorem validate_none_iff (c : MonitoringConfig) :
    Validate c = none ↔
      (100000000 ≤ c.PollInterval
        ∧ 0 < c.MemoryChangeThreshold ∧ c.MemoryChangeThreshold ≤ 1
        ∧ 0 < c.CPUThreshold ∧ c.CPUThreshold ≤ 1
        ∧ 0 ≤ c.ThreadChangeThreshold ∧ 0 ≤ c.HandleChangeThreshold) := by
  unfold Validate
  split_ifs with h1 h2 h3 h4 h5 <;>
    simp_all [not_or, not_lt, not_le]
  all_goals intros
  all_goals first
    | (rcases h2 with h | h <;> linarith)
    | (rcases h3 with h | h <;> linarith)

theorem wrap32_zero : wrap32 0 = 0 := by decide

theorem absDiff32_self (a : ℤ) : absDiff32 a a = 0 := by
  simp [absDiff32, wrap32_zero]

/-- Wrapping is the identity on the `int32` range. -/
theorem wrap32_eq_self {n : ℤ} (h1 : -2 ^ 31 ≤ n) (h2 : n < 2 ^ 31) : wrap32 n = n := by
  unfold wrap32
  omega

/-- In the `int32` range the modelled `int32(math.Abs(float64(a - b)))` is
the mathematical absolute difference. -/
theorem absDiff32_eq_abs {a b : ℤ} (h : |a - b| < 2 ^ 31) : absDiff32 a b = |a - b| := by
  have hb := abs_lt.mp h
  unfold absDiff32
  rw [wrap32_eq_self (by linarith [hb.1]) hb.2,
      wrap32_eq_self (by have := abs_nonneg (a - b); linarith) h]

/-- The memory-ratio test never fires on an unchanged usage (positive
threshold): the ratio is `1` for non-zero usage, and `NaN`-semantics make
the comparison false for zero usage. -/
theorem memRatioOutside_self (t : ℚ) (m : ℕ) (ht : 0 < t) :
    memRatioOutside t m m = false := by
  unfold memRatioOutside
  rcases Nat.eq_zero_or_pos m with h | h
  · simp [h]
  · have hm : (m : ℚ) ≠ 0 := Nat.cast_ne_zero.mpr (Nat.pos_iff_ne_zero.mp h)
    simp only [if_neg (Nat.pos_iff_ne_zero.mp h), div_self hm, decide_eq_false_iff_not]
    push_neg
    constructor <;> linarith

/-- A process compared against itself yields no modification, provided the
memory threshold is positive and each enabled count detector has a
threshold of at least 1. -/
theorem detectModifications_self (cfg : MonitoringConfig) (info : ProcessInfo)
    (hmem : 0 < cfg.MemoryChangeThreshold)
    (ht : cfg.MonitorThreads = true → 1 ≤ cfg.ThreadChangeThreshold)
    (hh : cfg.MonitorHandles = true → 1 ≤ cfg.HandleChangeThreshold) :
    detectModifications cfg info info = [] := by
  unfold detectModifications
  cases hsm : shouldMonitorProcess cfg info with
  | false => simp [hsm]
  | true =>
    simp only [hsm, Bool.not_true, Bool.false_eq_true, if_false,
      bne_self_eq_false, Bool.and_false, absDiff32_self,
      memRatioOutside_self _ _ hmem]
    split_ifs <;> simp_all <;> omega

/-- The default configuration passes validation. -/
theorem Validate_DefaultConfig : Validate DefaultConfig = none := by
  rw [validate_none_iff]
  norm_num [DefaultConfig]

theorem lookupS_eq_none_iff (s : Snapshot) (pid : ℤ) :
    lookupS s pid = none ↔ pid ∉ s.map Prod.fst := by
  induction s with
  | nil => simp [lookupS]
  | cons kv rest ih =>
    obtain ⟨k, v⟩ := kv
    by_cases h : k = pid
    · simp [lookupS, h]
    · simp [lookupS, h, ih, Ne.symm h]

/-- With unique keys, lookup of a member's key returns that member's
value. -/
theorem lookupS_of_nodup (s : Snapshot) {kv : ℤ × ProcessInfo}
    (hnd : (s.map Prod.fst).Nodup) (h : kv ∈ s) :
    lookupS s kv.1 = some kv.2 := by
  induction s with
  | nil => cases h
  | cons hd rest ih =>
    obtain ⟨k, v⟩ := hd
    simp only [List.map_cons, List.nodup_cons] at hnd
    rcases List.mem_cons.mp h with rfl | hmem
    · simp [lookupS]
    · have hne : k ≠ kv.1 := by
        intro he
        exact hnd.1 (he ▸ List.mem_map_of_mem Prod.fst hmem)
      rw [lookupS, if_neg hne]
      exact ih hnd.2 hmem

theorem lookupS_isSome_of_mem (s : Snapshot) {kv : ℤ × ProcessInfo} (h : kv ∈ s) :
    lookupS s kv.1 ≠ none := by
  rw [Ne, lookupS_eq_none_iff]
  simp only [not_not]
  exact List.mem_map_of_mem Prod.fst h

theorem mem_keysFin (s : Snapshot) (pid : ℤ) :
    pid ∈ keysFin s ↔ lookupS s pid ≠ none := by
  rw [keysFin, List.mem_toFinset, Ne, lookupS_eq_none_iff, not_not]

/-- A PID is classified exactly when it occurs in at least one of the two
snapshots. -/
theorem classifyPid_isSome_iff (cfg : MonitoringConfig) (prev cur : Snapshot) (pid : ℤ) :
    (classifyPid cfg prev cur pid).isSome ↔ pid ∈ keysFin prev ∪ keysFin cur := by
  unfold classifyPid
  rcases hprev : lookupS prev pid with _ | oldInfo <;>
    rcases hcur : lookupS cur pid with _ | newInfo <;>
      simp [Finset.mem_union, mem_keysFin, hprev, hcur]
  split <;> simp

/-- The user-exclusion tests of the two filter implementations coincide
(`strings.ToLower` equality versus `strings.EqualFold`). -/
theorem user_check_eq (info : ProcessInfo) (u : Str) :
    (lowerStr u == lowerStr info.Username) = eqFold info.Username u := by
  by_cases h : lowerStr info.Username = lowerStr u
  · simp [eqFold, h]
  · simp [eqFold, h, Ne.symm h]

/-!
## Claim theorems
-/

/-- Claim C1, counterexample: the claim fails as stated.  The configuration
`cfgZeroThr` (thread threshold 0, thread monitoring on) is accepted by
validation, yet diffing the one-process snapshot `{1 ↦ infoBash}` against
itself produces a `ThreadCountChange` modification (a change of 0 reaches
the threshold 0) and a non-empty event list for the tick. -/
theorem diff_on_equal_snapshots_counterexample :
    Validate cfgZeroThr = none
    ∧ lookupS [((1 : ℤ), infoBash)] 1 = some infoBash
    ∧ (detectModifications cfgZeroThr infoBash infoBash).map (·.ModType)
        = [ModificationType.ThreadCountChange]
    ∧ tickEvents cfgZeroThr [(1, infoBash)] [(1, infoBash)] ≠ [] := by
  refine ⟨?_, by decide, by decide, by decide⟩
  rw [validate_none_iff]
  norm_num [cfgZeroThr, DefaultConfig]

/-- Claim C1 (amended): for every snapshot `S` with unique PIDs and every
configuration accepted by validation in which each enabled count detector
has a threshold of at least 1, diff(S, S) — equivalently one Monitor tick
whose new snapshot equals the retained snapshot — yields an empty created
set, an empty terminated set, an empty modification list for every process
of `S`, and no events. -/
theorem diff_on_equal_snapshots_empty (cfg : MonitoringConfig) (S : Snapshot)
    (hv : Validate cfg = none)
    (ht : cfg.MonitorThreads = true → 1 ≤ cfg.ThreadChangeThreshold)
    (hh : cfg.MonitorHandles = true → 1 ≤ cfg.HandleChangeThreshold)
    (hnd : (S.map Prod.fst).Nodup) :
    classFin cfg S S .created = ∅ ∧ classFin cfg S S .terminated = ∅
      ∧ (∀ pid info, lookupS S pid = some info → detectModifications cfg info info = [])
      ∧ tickEvents cfg S S = [] := by
  have hmem : 0 < cfg.MemoryChangeThreshold := ((validate_none_iff cfg).mp hv).2.1
  have hdet : ∀ info, detectModifications cfg info info = [] := fun info =>
    detectModifications_self cfg info hmem ht hh
  refine ⟨?_, ?_, fun _ info _ => hdet info, ?_⟩
  · rw [Finset.eq_empty_iff_forall_not_mem]
    intro pid hmempid
    rw [classFin, Finset.mem_filter] at hmempid
    rcases hl : lookupS S pid with _ | i <;> simp [classifyPid, hl] at hmempid
    rcases hmempid.2 with h
    split at h <;> cases h
  · rw [Finset.eq_empty_iff_forall_not_mem]
    intro pid hmempid
    rw [classFin, Finset.mem_filter] at hmempid
    rcases hl : lookupS S pid with _ | i <;> simp [classifyPid, hl] at hmempid
    rcases hmempid.2 with h
    split at h <;> cases h
  · unfold tickEvents
    rw [List.append_eq_nil]
    constructor
    · rw [List.flatMap_eq_nil_iff]
      intro kv hkv
      rw [lookupS_of_nodup S hnd hkv]
      split
      · rename_i oldInfo heq
        injection heq with h
        subst h
        simp [hdet]
      · rename_i heq
        exact Option.noConfusion heq
    · rw [List.flatMap_eq_nil_iff]
      intro kv hkv
      rcases hl : lookupS S kv.1 with _ | i
      · exact absurd hl (lookupS_isSome_of_mem S hkv)
      · simp

/-- Claim C1, witness: the amended theorem applied to the validated default
configuration and the snapshot `{1 ↦ infoBash}`. -/
theorem diff_on_equal_snapshots_empty_witness :
    tickEvents DefaultConfig [(1, infoBash)] [(1, infoBash)] = []
    ∧ classFin DefaultConfig [(1, infoBash)] [(1, infoBash)] .created = ∅ :=
  ⟨(diff_on_equal_snapshots_empty DefaultConfig [(1, infoBash)] Validate_DefaultConfig
      (by decide) (by decide) (by decide)).2.2.2,
   (diff_on_equal_snapshots_empty DefaultConfig [(1, infoBash)] Validate_DefaultConfig
      (by decide) (by decide) (by decide)).1⟩

/-- Claim C2, counterexample: the claim fails as stated.  Under `cfgInc`
(include list `["ngin*"]`) the nginx process passes the config-package
filter — so it can be a surviving PID of two filter-closed snapshots — its
old memory usage is 0, its new usage is positive and memory monitoring is
on, yet `detectModifications` produces nothing because its inline filter
re-check rejects the name against the glob include entry. -/
theorem memory_zero_guard_counterexample :
    cfgInc.MonitorMemory = true
    ∧ ShouldMonitorProcess cfgInc infoNgxOld = true
    ∧ ShouldMonitorProcess cfgInc infoNgxMem5 = true
    ∧ infoNgxOld.MemoryUsage = 0
    ∧ 0 < infoNgxMem5.MemoryUsage
    ∧ (detectModifications cfgInc infoNgxOld infoNgxMem5).map (·.ModType) = [] := by
  decide

/-- Claim C2 (amended): if memory monitoring is enabled and the collector's
inline filter accepts the new record, an old memory usage of 0 with a new
usage > 0 always yields a `MemoryModification`; the `old == 0` division is
the benign IEEE `+Inf` case and never traps. -/
theorem memory_zero_guard (cfg : MonitoringConfig) (old new : ProcessInfo)
    (hmon : cfg.MonitorMemory = true)
    (hsm : shouldMonitorProcess cfg new = true)
    (h0 : old.MemoryUsage = 0) (hpos : 0 < new.MemoryUsage) :
    ModificationType.MemoryModification ∈ (detectModifications cfg old new).map (·.ModType) := by
  have hguard : memRatioOutside cfg.MemoryChangeThreshold old.MemoryUsage new.MemoryUsage
      = true := by
    unfold memRatioOutside
    rw [h0]
    simp [hpos]
  unfold detectModifications
  simp [hsm, hmon, hguard, List.mem_append]

/-- Claim C2, witness: the default configuration, `infoBash` growing from 0
to 5 bytes. -/
theorem memory_zero_guard_witness :
    ModificationType.MemoryModification
      ∈ (detectModifications DefaultConfig infoBash infoBashMem5).map (·.ModType) :=
  memory_zero_guard DefaultConfig infoBash infoBashMem5 rfl (by decide) rfl (by decide)

/-- Claim C3: the code re-filters inside the diff layer, contradicting the
claim (the specification itself marks the duplicated filtering as a
defect).  Two snapshot pairs, filter-closed for `cfgInc`, with the same
thresholds and flags (`cfgOpen` is `cfgInc` with the include list emptied):
under `cfgOpen` the command-line change of the surviving nginx process is
reported, under `cfgInc` the inline filter re-check inside
`detectModifications` suppresses it, so the diff of filter-closed snapshots
is not independent of the filter. -/
theorem diff_layer_refilters :
    filterClosed cfgInc [(1, infoNgxOld)]
    ∧ filterClosed cfgInc [(1, infoNgxNew)]
    ∧ cfgOpen = { cfgInc with IncludedProcesses := [] }
    ∧ (detectModifications cfgInc infoNgxOld infoNgxNew).map (·.ModType) = []
    ∧ (detectModifications cfgOpen infoNgxOld infoNgxNew).map (·.ModType)
        = [ModificationType.CommandLineChange]
    ∧ tickEvents cfgInc [(1, infoNgxOld)] [(1, infoNgxNew)] = []
    ∧ tickEvents cfgOpen [(1, infoNgxOld)] [(1, infoNgxNew)] ≠ [] := by
  refine ⟨?_, ?_, rfl, by decide, by decide, by decide, by decide⟩ <;>
    (unfold filterClosed; decide)

/-- Claim C4: in one diff cycle every PID of `keys(S_prev) ∪ keys(S_cur)`
falls into exactly one of the four classes created / terminated /
unchanged-no-modification / unchanged-modified: the four classes are
pairwise disjoint and their union is the key union. -/
theorem snapshot_partition (cfg : MonitoringConfig) (prev cur : Snapshot) :
    (∀ c₁ c₂ : PidClass, c₁ ≠ c₂ →
        Disjoint (classFin cfg prev cur c₁) (classFin cfg prev cur c₂))
    ∧ classFin cfg prev cur .created ∪ classFin cfg prev cur .terminated
        ∪ classFin cfg prev cur .unchangedNoMod ∪ classFin cfg prev cur .unchangedModified
      = keysFin prev ∪ keysFin cur := by
  constructor
  · intro c₁ c₂ hne
    rw [Finset.disjoint_left]
    intro pid h1 h2
    rw [classFin, Finset.mem_filter] at h1 h2
    apply hne
    have := h1.2.symm.trans h2.2
    exact Option.some_injective _ this
  · ext pid
    simp only [Finset.mem_union, classFin, Finset.mem_filter]
    constructor
    · rintro (((⟨h, _⟩ | ⟨h, _⟩) | ⟨h, _⟩) | ⟨h, _⟩) <;>
        simpa [Finset.mem_union] using h
    · intro h
      have hs : (classifyPid cfg prev cur pid).isSome :=
        (classifyPid_isSome_iff cfg prev cur pid).mpr (by simpa [Finset.mem_union] using h)
      rcases hcl : classifyPid cfg prev cur pid with _ | c
      · rw [hcl] at hs; cases hs
      · cases c
        · exact Or.inl (Or.inl (Or.inl ⟨by simpa [Finset.mem_union] using h, rfl⟩))
        · exact Or.inl (Or.inl (Or.inr ⟨by simpa [Finset.mem_union] using h, rfl⟩))
        · exact Or.inl (Or.inr ⟨by simpa [Finset.mem_union] using h, rfl⟩)
        · exact Or.inr ⟨by simpa [Finset.mem_union] using h, rfl⟩

/-- Claim C4, witness: the partition theorem applied to the default
configuration and two empty snapshots, with the disjointness hypothesis
discharged at `created ≠ terminated`. -/
theorem snapshot_partition_witness :
    Disjoint (classFin DefaultConfig [] [] .created) (classFin DefaultConfig [] [] .terminated)
    ∧ classFin DefaultConfig [] [] .created ∪ classFin DefaultConfig [] [] .terminated
        ∪ classFin DefaultConfig [] [] .unchangedNoMod
        ∪ classFin DefaultConfig [] [] .unchangedModified
      = keysFin [] ∪ keysFin [] :=
  ⟨(snapshot_partition DefaultConfig [] []).1 .created .terminated (by decide),
   (snapshot_partition DefaultConfig [] []).2⟩

/-- Claim C5, counterexample: the claim fails as stated.  Under `cfgInc`
the nginx process is in both (filter-closed) snapshots, thread monitoring
is on, the threshold is 2 and the thread count changes by exactly 2, yet no
`ThreadCountChange` is produced: the inline filter re-check inside
`detectModifications` rejects the name against the glob include entry. -/
theorem thread_threshold_counterexample :
    cfgInc.MonitorThreads = true
    ∧ cfgInc.ThreadChangeThreshold = 2
    ∧ ShouldMonitorProcess cfgInc infoNgxThr5 = true
    ∧ ShouldMonitorProcess cfgInc infoNgxThr7 = true
    ∧ |infoNgxThr7.ThreadCount - infoNgxThr5.ThreadCount| = cfgInc.ThreadChangeThreshold
    ∧ (detectModifications cfgInc infoNgxThr5 infoNgxThr7).map (·.ModType) = [] := by
  decide

/-- Claim C5 (amended): for a process accepted by the collector's inline
filter, with thread monitoring enabled, `1 ≤ threadChangeThreshold < 2^31`
and `int32` thread counts, an absolute change of exactly the threshold
produces a `ThreadCountChange` and a change of threshold − 1 produces
none. -/
theorem thread_threshold_boundary (cfg : MonitoringConfig) (old new : ProcessInfo)
    (hmon : cfg.MonitorThreads = true)
    (hthr : 1 ≤ cfg.ThreadChangeThreshold)
    (hmax : cfg.ThreadChangeThreshold < 2 ^ 31)
    (hsm : shouldMonitorProcess cfg new = true) :
    (|new.ThreadCount - old.ThreadCount| = cfg.ThreadChangeThreshold →
      ModificationType.ThreadCountChange ∈ (detectModifications cfg old new).map (·.ModType))
    ∧ (|new.ThreadCount - old.ThreadCount| = cfg.ThreadChangeThreshold - 1 →
      ModificationType.ThreadCountChange ∉ (detectModifications cfg old new).map (·.ModType)) := by
  constructor
  · intro heq
    have habs : absDiff32 new.ThreadCount old.ThreadCount = cfg.ThreadChangeThreshold := by
      rw [absDiff32_eq_abs (heq ▸ hmax), heq]
    unfold detectModifications
    simp [hsm, hmon, habs, List.mem_append]
  · intro heq
    have habs : absDiff32 new.ThreadCount old.ThreadCount = cfg.ThreadChangeThreshold - 1 := by
      rw [absDiff32_eq_abs (by omega), heq]
    unfold detectModifications
    simp only [hsm, Bool.not_true, Bool.false_eq_true, if_false, habs, List.map_append,
      List.mem_append]
    intro hcontra
    rcases hcontra with ((((h | h) | h) | h) | h) <;>
      (revert h; split_ifs <;> simp <;> omega)

/-- Claim C5, witness: default configuration (threshold 2), thread count
going from 5 to 7. -/
theorem thread_threshold_boundary_witness :
    ModificationType.ThreadCountChange
      ∈ (detectModifications DefaultConfig infoBashThr5 infoBashThr7).map (·.ModType) :=
  (thread_threshold_boundary DefaultConfig infoBashThr5 infoBashThr7
      rfl (by decide) (by decide) (by decide)).1 (by decide)

/-- Claim C6: a failed enumeration aborts only the current tick: the tick
emits no events and leaves the retained snapshot unchanged, and the poll
loop continues with the remaining ticks exactly as if the failed tick had
not occurred. -/
theorem enumeration_failure_aborts_tick (cfg : MonitoringConfig) (s : Snapshot)
    (rest : List (Option (List RawProc))) :
    tick cfg s none = (s, [])
    ∧ runTicks cfg s (none :: rest) = runTicks cfg s rest := by
  constructor
  · rfl
  · simp [runTicks, tick]

/-- Claim C7: the config-package filter `ShouldMonitorProcess` implements
exactly the ordered first-match-wins rules of §4.1 of the specification
(glob exclusion, then glob inclusion when the include list is non-empty,
then case-insensitive user exclusion, else accept). -/
theorem filter_follows_spec_rules (cfg : MonitoringConfig) (info : ProcessInfo) :
    ShouldMonitorProcess cfg info = shouldMonitorSpecRules cfg info := by
  unfold ShouldMonitorProcess shouldMonitorSpecRules
  simp only [user_check_eq]

/-- Claim C8: `Validate` returns an error exactly for the out-of-range
configurations of the claim; the startup configuration (the default, since
file loading is commented out in `main`) passes validation, and any
configuration returned by `LoadConfig` has passed validation, so monitoring
never starts with an invalid threshold. -/
theorem validation_rejects_out_of_range :
    (∀ c : MonitoringConfig, (Validate c).isSome ↔ outOfRangeConfig c)
    ∧ Validate DefaultConfig = none
    ∧ ∀ p c : MonitoringConfig, LoadConfig p = .ok c → Validate c = none := by
  refine ⟨?_, Validate_DefaultConfig, ?_⟩
  · intro c
    rw [Option.isSome_iff_ne_none, Ne, validate_none_iff, outOfRangeConfig]
    simp only [not_and_or, not_le, not_lt]
  · intro p c h
    unfold LoadConfig at h
    rcases hv : Validate p with _ | e
    · rw [hv] at h
      injection h with h'
      subst h'
      exact hv
    · rw [hv] at h
      exact Except.noConfusion h

/-- Claim C8, witness: a 0ns poll interval is rejected, and the theorem's
`LoadConfig` conjunct applied to the default configuration. -/
theorem validation_rejects_out_of_range_witness :
    (Validate { DefaultConfig with PollInterval := 0 }).isSome
    ∧ Validate DefaultConfig = none :=
  ⟨(validation_rejects_out_of_range.1 _).mpr (Or.inl (by decide)),
   validation_rejects_out_of_range.2.2 DefaultConfig DefaultConfig
     (by unfold LoadConfig; rw [Validate_DefaultConfig])⟩

/-- Claim C9, counterexample: the claim fails as stated.  With include list
`["ngin*"]`, the config-package predicate glob-accepts the name `nginx`
while the collector's inline predicate, which tests inclusion by
case-insensitive equality, rejects it. -/
theorem filter_predicates_differ_counterexample :
    ShouldMonitorProcess cfgInc infoNgxOld = true
    ∧ shouldMonitorProcess cfgInc infoNgxOld = false := by
  decide

/-- Claim C9 (amended): the two predicates are not equivalent in general;
they agree on every process whenever the included-process list is empty and
every excluded-process entry that case-insensitively equals the process
name also glob-matches it. -/
theorem filter_predicates_agree_conditionally (cfg : MonitoringConfig) (info : ProcessInfo)
    (hinc : cfg.IncludedProcesses = [])
    (hexc : ∀ e ∈ cfg.ExcludedProcesses, eqFold info.Name e = true →
        globMatch (lowerStr e) (lowerStr info.Name) = true) :
    ShouldMonitorProcess cfg info = shouldMonitorProcess cfg info := by
  unfold ShouldMonitorProcess shouldMonitorProcess
  cases hg : (cfg.ExcludedProcesses.any fun e => globMatch (lowerStr e) (lowerStr info.Name))
  · have he : (cfg.ExcludedProcesses.any fun e => eqFold info.Name e) = false := by
      rw [List.any_eq_false] at hg ⊢
      intro e hmem hef
      exact hg e hmem (hexc e hmem hef)
    simp [hg, he, hinc, user_check_eq]
  · simp [hg]

/-- Claim C9, witness: the default configuration (empty include list,
literal exclusions) and `infoBash`. -/
theorem filter_predicates_agree_conditionally_witness :
    ShouldMonitorProcess DefaultConfig infoBash = shouldMonitorProcess DefaultConfig infoBash :=
  filter_predicates_agree_conditionally DefaultConfig infoBash rfl (by decide)

/-- Claim C10: `getProcessInfo` returns a nil error on every process
handle, so the skip-on-error branch of `getRunningProcesses` is dead: the
snapshot builder is extensionally equal to the branch-free builder that
includes every enumerated process passing the filter. -/
theorem getProcessInfo_never_fails :
    (∀ p : RawProc, (getProcessInfo p).2 = none)
    ∧ ∀ (cfg : MonitoringConfig) (procs : List RawProc),
        getRunningProcesses cfg procs = getRunningProcessesNoSkip cfg procs :=
  ⟨fun _ => rfl, fun _ _ => rfl⟩

end ArgusSentinel
